import Mathlib

/-!
Verification of the PluginManager plugin-lifecycle engine.

Shallow embedding of `src/pluginmanager/pmplugin.py` (classes `Plugin` and
`Plugins`): manifest parsing, registry building, archive installation, and the
activate / deactivate / uninstall lifecycle transitions.

External collaborators (the Krita host, `configparser`, `zipfile`, the
filesystem, `QStandardPaths`) are modelled explicitly:
* the host settings store (`Krita.instance().readSetting` / `writeSetting`)
  is an association list from keys to string values;
* `sys.modules` is an association list from module names to the optional
  `__file__` attribute (`none` when the module has no string `__file__`);
* a parsed manifest (the result of `configparser`) is a list of sections, each a
  list of key/value pairs;
* the filesystem is an association list from full paths to nodes (file with
  parsed-manifest content, or directory);
* a zip archive is a list of (entry name, entry content) pairs;
* `QStandardPaths.writableLocation(AppDataLocation)` is a fixed base path.

Paths are strings; `os.path.join`, `os.path.dirname` and `os.path.basename`
are modelled character-faithfully on `/`-separated paths, because the
installer slices entry names by character count.
-/

set_option autoImplicit false

deriving instance DecidableEq for Except

namespace PluginManager

/-- Exceptions that the Python code can raise, as relevant to the modelled
paths: `EInvalidType` / `EInvalidValue` from `pmexceptions`, the `KeyError`
raised by `cfgParser["Desktop Entry"]` on a missing section, the parse errors
`configparser` raises on unparseable text, and failures of
`SourceFileLoader.load_module` or of the extension-activation steps. -/
inductive PyErr where
  | eInvalidType (msg : String)
  | eInvalidValue (msg : String)
  | keyError (key : String)
  | parseError
  | loadModuleError
  | extensionError
  deriving DecidableEq, Repr

/-- Model of Python string slicing `s[n:]` (characters). -/
def strDrop (s : String) (n : Nat) : String := ⟨s.data.drop n⟩

/-- Model of Python `len(s)` (characters). -/
def strLen (s : String) : Nat := s.data.length

/-- Model of `re.search` anchored at end for a literal suffix, as the code
uses it, and of Python `s.endswith`. -/
def strEndsWith (s suffix : String) : Bool := suffix.data.isSuffixOf s.data

/-- Whether `p` is a character prefix of `s` (used to model paths lying
under a directory). -/
def strIsPrefixOf (p s : String) : Bool := p.data.isPrefixOf s.data

/-- Split a character list at `/` (helper for `os.path` functions). -/
def splitSlash : List Char → List (List Char)
  | [] => [[]]
  | c :: cs =>
    let r := splitSlash cs
    if c = '/' then [] :: r
    else
      match r with
      | [] => [[c]]
      | h :: t => (c :: h) :: t

/-- Model of `os.path.join` for a relative second component (the only use in the
source): Python returns `b` when `a` is empty, else the two joined with a slash. -/
def joinPath (a b : String) : String :=
  if a = "" then b else a ++ "/" ++ b

/-- Model of `os.path.basename`: the part after the last `/`. -/
def basename (s : String) : String :=
  ⟨((splitSlash s.data).getLast?).getD []⟩

/-- Model of `os.path.dirname`: the part before the last `/` (empty when no `/`). -/
def dirname (s : String) : String :=
  ⟨(List.intercalate ['/'] ((splitSlash s.data).dropLast))⟩

/-- Model of `QStandardPaths.writableLocation(QStandardPaths.AppDataLocation)`,
modelled as a fixed base directory of the host environment. -/
def appDataLocation : String := "appdata"

/-- Model of `Plugins.path()`: the plugin installation root,
joining `pykrita` to the application-data directory (the `mkdir` side effect fires only when
the directory is absent; the modelled filesystem states keep it implicit). -/
def pluginsPath : String := joinPath appDataLocation "pykrita"

/-- The host-managed actions directory: `actions` under application data. -/
def actionsPath : String := joinPath appDataLocation "actions"

/-- The host settings store (`Krita` settings, group `python`):
an association list from setting keys to string values. -/
abbrev Settings := List (String × String)

/-- Model of `Krita.instance().readSetting` on group `python`. -/
def readSetting (s : Settings) (key dflt : String) : String :=
  (s.lookup key).getD dflt

/-- Model of `Krita.instance().writeSetting` on group `python`; writing `none`
(Python `None`) removes the key. -/
def writeSetting (s : Settings) (key : String) (v : Option String) : Settings :=
  match v with
  | some v => (key, v) :: s.filter (fun kv => kv.1 ≠ key)
  | none => s.filter (fun kv => kv.1 ≠ key)

/-- One section of a parsed desktop-entry manifest: key/value pairs. -/
abbrev Sect := List (String × String)

/-- The result of `configparser` on a manifest: sections by name. -/
abbrev CfgParser := List (String × Sect)

/-- Model of `section.get(key, default)` of `configparser`. -/
def sectGet (sec : Sect) (key dflt : String) : String :=
  (sec.lookup key).getD dflt

/-- A manifest text as consumed through `configparser`:
empty text, text `configparser` rejects with a parse error, or the section
table it produces. -/
inductive ManifestText where
  | empty
  | unparseable
  | table (cfg : CfgParser)
  deriving DecidableEq, Repr

/-- The `Plugin` record: fields of class `Plugin` in `pmplugin.py`. -/
structure Plugin where
  id : String
  name : String
  description : String
  path : String
  manual : String
  desktopFile : String
  isActive : Bool
  isValid : Bool
  deriving DecidableEq, Repr

/-- Model of `Plugin.__defaultValues`: every field empty / false. -/
def defaultValues : Plugin :=
  { id := "", name := "", description := "", path := "", manual := "",
    desktopFile := "", isActive := false, isValid := false }

/-- Model of `Plugin.__loadFromcfgParser`: the lookup of the section
`Desktop Entry` raises
`KeyError` when the section is absent; otherwise every field is read with a
default, `isValid` is set to `True` unconditionally, and `isActive` mirrors
the host setting `enable_<id>`.  (`configparser` values are strings, so the
`isinstance(..., list)` joins in the source never fire.) -/
def loadFromcfgParser (settingsStore : Settings) (cfg : CfgParser) :
    Except PyErr Plugin :=
  match cfg.lookup "Desktop Entry" with
  | none => .error (.keyError "Desktop Entry")
  | some settings =>
    let id := sectGet settings "X-KDE-Library" ""
    let name := sectGet settings "Name" ""
    let description := sectGet settings "Comment" ""
    let path := joinPath pluginsPath id
    let manual0 := sectGet settings "X-Krita-Manual" ""
    let manual := if manual0 ≠ "" then joinPath path manual0 else manual0
    let isActive := readSetting settingsStore ("enable_" ++ id) "false" = "true"
    .ok { id := id, name := name, description := description, path := path,
          manual := manual, desktopFile := "", isActive := isActive,
          isValid := true }

/-- Model of `Plugin.loadFromDesktopContent` on a non-`None` string argument:
empty content returns the default (invalid) record; otherwise the content is
parsed and on success the theoretical desktop-file path
`<pluginsPath>/<id>.desktop` is recorded. -/
def loadFromDesktopContent (settingsStore : Settings) (mt : ManifestText) :
    Except PyErr Plugin :=
  match mt with
  | .empty => .ok defaultValues
  | .unparseable => .error .parseError
  | .table cfg =>
    (loadFromcfgParser settingsStore cfg).map fun p =>
      { p with desktopFile := joinPath pluginsPath (p.id ++ ".desktop") }

/-- A filesystem node: a regular file (content modelled at the granularity
the code consumes it: a manifest text) or a directory. -/
inductive FSNode where
  | file (content : ManifestText)
  | dir
  deriving DecidableEq, Repr

/-- The filesystem: an association list from full paths to nodes. -/
abbrev FS := List (String × FSNode)

/-- Model of `os.path.isfile`: the content of the regular file at `p`, if any. -/
def fsIsFile (fs : FS) (p : String) : Option ManifestText :=
  match fs.lookup p with
  | some (.file c) => some c
  | _ => none

/-- Model of `os.path.exists`. -/
def fsExists (fs : FS) (p : String) : Bool := (fs.lookup p).isSome

/-- Writing a file (`archive.extract` destination): overwrites an existing
entry at that path, otherwise appends. -/
def fsWrite (fs : FS) (p : String) (n : FSNode) : FS :=
  if (fs.lookup p).isSome then
    fs.map fun e => if e.1 = p then (p, n) else e
  else fs ++ [(p, n)]

/-- Model of `Plugin.loadFromDesktopFile` on a non-`None` string argument:
raises `EInvalidValue` when the path is not a file or lacks the `.desktop`
extension; otherwise reads and parses the file (`configparser.read` on an
empty file yields an empty section table, so the subsequent
`cfgParser["Desktop Entry"]` raises `KeyError`), recording the file path in
`desktopFile`. -/
def loadFromDesktopFile (fs : FS) (settingsStore : Settings)
    (desktopFileName : String) : Except PyErr Plugin :=
  match fsIsFile fs desktopFileName with
  | none => .error (.eInvalidValue "Given desktopFileName file doesnt exists")
  | some mt =>
    if strEndsWith desktopFileName ".desktop" then
      match mt with
      | .unparseable => .error .parseError
      | .empty => .error (.keyError "Desktop Entry")
      | .table cfg =>
        (loadFromcfgParser settingsStore cfg).map fun p =>
          { p with desktopFile := desktopFileName }
    else .error (.eInvalidValue "Given desktopFileName must have desktop extension")

/-- A Python value passed to a public operation, as far as the shape checks
(`isinstance`) of the source distinguish them: a string, a `Plugin` object,
`None`, or any other object (e.g. an `int`). -/
inductive PyVal where
  | pstr (s : String)
  | pplugin (p : Plugin)
  | pnone
  | pother
  deriving DecidableEq, Repr

/-- Whether the value is a Python `str`. -/
def PyVal.isStr : PyVal → Bool
  | .pstr _ => true
  | _ => false

/-- Whether the value is a `Plugin` instance. -/
def PyVal.isPlugin : PyVal → Bool
  | .pplugin _ => true
  | _ => false

/-- The registry mapping `Plugins.__plugins` (Python dict: insertion order,
assignment to an existing key updates in place). -/
abbrev PluginDict := List (String × Plugin)

/-- Python dict assignment `d[k] = v`. -/
def dictInsert (d : PluginDict) (k : String) (v : Plugin) : PluginDict :=
  if (d.lookup k).isSome then
    d.map fun e => if e.1 = k then (k, v) else e
  else d ++ [(k, v)]

/-- Model of `Plugins.append`: a string argument is parsed on the spot
(`Plugin(plugin)` — any exception is swallowed by the bare `except`, giving
`False`); a non-`Plugin`, non-`str` argument gives `False`; a record with an
empty id gives `False`; otherwise the record is stored under its id.  The
`Except` result type records that no exception escapes: every path is `ok`. -/
def pluginsAppend (fs : FS) (settingsStore : Settings) (d : PluginDict)
    (v : PyVal) : Except PyErr (Bool × PluginDict) :=
  match v with
  | .pstr s =>
    match loadFromDesktopFile fs settingsStore s with
    | .error _ => .ok (false, d)
    | .ok p =>
      if p.id ≠ "" then .ok (true, dictInsert d p.id p) else .ok (false, d)
  | .pplugin p =>
    if p.id ≠ "" then .ok (true, dictInsert d p.id p) else .ok (false, d)
  | _ => .ok (false, d)

/-- Model of `Plugins.remove`: raises `EInvalidType` unless the id is a string;
otherwise pops the id if present. -/
def pluginsRemove (d : PluginDict) (v : PyVal) : Except PyErr PluginDict :=
  match v with
  | .pstr s => .ok (d.filter fun kv => kv.1 ≠ s)
  | _ => .error (.eInvalidType "Given id must be a str")

/-- Model of `Plugins.plugin`: raises `EInvalidType` unless the id is a string;
returns the record or `None`. -/
def pluginsPlugin (d : PluginDict) (v : PyVal) :
    Except PyErr (Option Plugin) :=
  match v with
  | .pstr s => .ok (d.lookup s)
  | _ => .error (.eInvalidType "Given id must be a str")

/-- Model of `Plugins.__buildList` (the body of `refresh()`): starting from an empty
dict, for every entry name of `os.scandir(Plugins.path())` (the `names`
argument) matching `\.desktop$`, append the full path.  `append` never
raises, so neither does the scan. -/
def buildList (fs : FS) (settingsStore : Settings) (names : List String) :
    PluginDict :=
  names.foldl
    (fun d name =>
      if strEndsWith name ".desktop" then
        match pluginsAppend fs settingsStore d (.pstr (joinPath pluginsPath name)) with
        | .ok (_, d') => d'
        | .error _ => d
      else d)
    []

/-- The mutable host state a lifecycle operation touches: the settings store
and `sys.modules` (module name paired with the optional string `__file__`
attribute; `none` models a module without a string `__file__`). -/
structure HostState where
  settings : Settings
  modules : List (String × Option String)
  deriving DecidableEq, Repr

/-- The external host behaviour consumed by `Plugin.activate`:
`loadResult` models `SourceFileLoader(...).load_module()` — failure, or the
modules it registers in `sys.modules`; `extResult` models the outcome of the
extension-scanning / `setup` / `createActions` / menu-patching steps, which
touch only Krita-side UI state (an exception there propagates like any
other). -/
structure Host where
  loadResult : Except PyErr (List (String × Option String))
  extResult : Except PyErr Unit

/-- Model of `Plugin.deactivate`: no-op when already inactive; otherwise clears the
flag, persists the disabled sentinel, and pops from `sys.modules` every
module whose string `__file__` has `os.path.dirname` equal (exactly) to the
install path of the plugin. -/
def deactivate (p : Plugin) (st : HostState) : Plugin × HostState :=
  if !p.isActive then (p, st)
  else
    let p' := { p with isActive := false }
    let settings' := writeSetting st.settings ("enable_" ++ p.id) (some "false")
    let modules' := st.modules.filter fun m =>
      match m.2 with
      | some f => !(dirname f = p.path)
      | none => true
    (p', { settings := settings', modules := modules' })

/-- Model of `Plugin.activate`: no-op when already active; otherwise (1) sets the
flag, (2) persists the enabled sentinel, (3) loads the entry module
`<path>/__init__.py`, (4) runs the extension-correlation steps.  A Python
exception in (3) or (4) propagates to the caller with the mutations already
made, so the error case of the result carries the record and state as mutated at
the raise point. -/
def activate (host : Host) (p : Plugin) (st : HostState) :
    Except (PyErr × Plugin × HostState) (Plugin × HostState) :=
  if p.isActive then .ok (p, st)
  else
    let p' := { p with isActive := true }
    let st1 : HostState :=
      { st with settings := writeSetting st.settings ("enable_" ++ p.id) (some "true") }
    match host.loadResult with
    | .error e => .error (e, p', st1)
    | .ok newMods =>
      let st2 : HostState := { st1 with modules := st1.modules ++ newMods }
      match host.extResult with
      | .error e => .error (e, p', st2)
      | .ok _ => .ok (p', st2)

/-- The three-valued confirmation input
(`ACTION_VALIDATE_ASK / _YES / _NO`). -/
inductive ActionValidate where
  | ask
  | yes
  | no
  deriving DecidableEq, Repr

/-- Model of `Plugin.uninstall`: a `None` confirmation defaults to ask; ask resolves through the
blocking confirmation dialog (`askAnswer` is the yes/no reply of the user).  On
no: debug log and `False`, nothing touched.  On yes: deactivate, remove the
settings key entirely, delete the manifest file, the sibling
`<id>.action` file in the actions directory, and the install tree; reset the
record to defaults; return `True`. -/
def uninstall (askAnswer : Bool) (p : Plugin) (st : HostState) (fs : FS)
    (confirmUninstall : Option ActionValidate) :
    Bool × Plugin × HostState × FS :=
  let c0 := confirmUninstall.getD .ask
  let c := if c0 = .ask then (if askAnswer then .yes else .no) else c0
  if c = .no then (false, p, st, fs)
  else
    let (p1, st1) := deactivate p st
    let st2 : HostState :=
      { st1 with settings := writeSetting st1.settings ("enable_" ++ p1.id) none }
    let fs1 := fs.filter fun f => f.1 ≠ p1.desktopFile
    let actionFile := joinPath actionsPath (p1.id ++ ".action")
    let fs2 := fs1.filter fun f => f.1 ≠ actionFile
    let fs3 := fs2.filter fun f =>
      !(f.1 = p1.path || strIsPrefixOf (p1.path ++ "/") f.1)
    (true, defaultValues, st2, fs3)

/-- A zip archive: entry names (`archive.namelist()` order) with contents,
content modelled at the granularity the installer reads it (only the
bytes of the manifest entry are ever parsed). -/
abbrev Archive := List (String × ManifestText)

/-- One step of the extraction loop of `Plugin.install`: route the entry by
basename — `<id>.desktop` to the installation root and `<id>.action` to the
actions directory (both with the length of the manifest directory prefix
stripped), and otherwise, when the name is longer than the entry-module
directory prefix length, into the plugin directory with that many leading
characters stripped; shorter names are skipped. -/
def extractStep (id installPath : String) (rootPathLength initPathLength : Nat)
    (fs : FS) (entry : String × ManifestText) : FS :=
  if basename entry.1 = id ++ ".desktop" then
    fsWrite fs (joinPath pluginsPath (strDrop entry.1 rootPathLength)) (.file entry.2)
  else if basename entry.1 = id ++ ".action" then
    fsWrite fs (joinPath actionsPath (strDrop entry.1 rootPathLength)) (.file entry.2)
  else if strLen entry.1 > initPathLength then
    fsWrite fs (joinPath installPath (strDrop entry.1 initPathLength)) (.file entry.2)
  else fs

/-- Model of `Plugin.install` from an opened archive (`zipfile.ZipFile` has
succeeded; the `zipFileName` type/existence checks precede opening).
Returns the produced record (or `none`) together with the final host state
and filesystem.  Validation: exactly one `\.desktop$` entry; its content
must parse into a valid record; an entry matching `<id>/__init__\.py$` must
exist.  Then the overwrite policy is resolved (creating the install
directory when absent), the archive is extracted entry by entry, and the
record is activated — an exception raised by activation is caught by the
surrounding `except`, which returns `None` while keeping all mutations made
so far. -/
def install (host : Host) (askOverwrite : Bool) (st : HostState) (fs : FS)
    (archive : Archive) (overwrite : Option ActionValidate) :
    Option Plugin × HostState × FS :=
  match (archive.map Prod.fst).filter (fun n => strEndsWith n ".desktop") with
  | [] => (none, st, fs)
  | _ :: _ :: _ => (none, st, fs)
  | [desktopFileName] =>
    match loadFromDesktopContent st.settings
        ((archive.lookup desktopFileName).getD .unparseable) with
    | .error _ => (none, st, fs)
    | .ok plugin =>
      if !plugin.isValid then (none, st, fs)
      else
        match (archive.map Prod.fst).filter
            (fun n => strEndsWith n (joinPath plugin.id "__init__.py")) with
        | [] => (none, st, fs)
        | initFileName :: _ =>
          match
            (if fsExists fs plugin.path then
              (if (if overwrite.getD .ask = .ask then
                     (if askOverwrite then .yes else .no)
                   else overwrite.getD .ask) = ActionValidate.no then
                none
              else some fs)
            else some (fs ++ [(plugin.path, FSNode.dir)])) with
          | none => (none, st, fs)
          | some fs1 =>
            let rootPathLength :=
              if strLen (dirname desktopFileName) > 0 then
                strLen (dirname desktopFileName) + 1
              else 0
            let initPathLength :=
              if strLen (dirname initFileName) > 0 then
                strLen (dirname initFileName) + 1
              else 0
            let fs2 := archive.foldl
              (extractStep plugin.id plugin.path rootPathLength initPathLength) fs1
            match activate host plugin st with
            | .error (_, _, stE) => (none, stE, fs2)
            | .ok (p2, st2) => (some p2, st2, fs2)

/-! ## Concrete fixtures used by the theorems -/

/-- Manifest table for a plugin with id `baz`. -/
def bazCfg : CfgParser :=
  [("Desktop Entry", [("X-KDE-Library", "baz"), ("Name", "Baz")])]

/-- Archive fixture for id `baz`: the manifest, the entry module, a helper
source file, a same-named action-definition file, a stray top-level file not
under the `baz/` directory, and a three-character entry name. -/
def bazArchive : Archive :=
  [("baz.desktop", .table bazCfg), ("baz/__init__.py", .empty),
   ("baz/helper.py", .empty), ("baz.action", .empty),
   ("evil.txt", .empty), ("abc", .empty)]

/-- The record parsed from `bazCfg` against the settings store `s`. -/
def bazRecord (s : Settings) : Plugin :=
  { id := "baz", name := "Baz", description := "",
    path := "appdata/pykrita/baz", manual := "",
    desktopFile := "appdata/pykrita/baz.desktop",
    isActive := readSetting s "enable_baz" "false" = "true",
    isValid := true }

/-- The `baz` record in the active state. -/
def bazActiveRec : Plugin :=
  { id := "baz", name := "Baz", description := "",
    path := "appdata/pykrita/baz", manual := "",
    desktopFile := "appdata/pykrita/baz.desktop",
    isActive := true, isValid := true }

/-- Filesystem produced by extracting `bazArchive` into an empty filesystem:
the manifest at the installation root, entry module and helper inside the
install directory with the `baz/` prefix stripped, the action file in the
actions directory, the stray `evil.txt` inside the install directory with
its first four characters stripped, and nothing for `abc`. -/
def bazExtractedFS : FS :=
  [("appdata/pykrita/baz", .dir),
   ("appdata/pykrita/baz.desktop", .file (.table bazCfg)),
   ("appdata/pykrita/baz/__init__.py", .file .empty),
   ("appdata/pykrita/baz/helper.py", .file .empty),
   ("appdata/actions/baz.action", .file .empty),
   ("appdata/pykrita/baz/.txt", .file .empty)]

/-- A host on which module loading and extension activation succeed. -/
def hostOk : Host :=
  { loadResult := .ok [("__main__", some "appdata/pykrita/baz/__init__.py")],
    extResult := .ok () }

/-- A host on which `SourceFileLoader.load_module` raises. -/
def hostBad : Host :=
  { loadResult := .error .loadModuleError, extResult := .ok () }

/-- Manifest table for a valid plugin with id `foo`. -/
def fooCfg : CfgParser :=
  [("Desktop Entry", [("X-KDE-Library", "foo"), ("Name", "Foo")])]

/-- A corrupt manifest table: the required section is present but the
library-id key `X-KDE-Library` is missing. -/
def corruptCfg : CfgParser :=
  [("Desktop Entry", [("Name", "NoId")])]

/-- Registry directory fixture: one valid manifest `a.desktop` (id `foo`)
and one corrupt manifest `b.desktop` (missing the id key). -/
def regFS : FS :=
  [("appdata/pykrita/a.desktop", .file (.table fooCfg)),
   ("appdata/pykrita/b.desktop", .file (.table corruptCfg))]

/-- The record produced from `a.desktop` with an empty settings store. -/
def fooRecord : Plugin :=
  { id := "foo", name := "Foo", description := "",
    path := "appdata/pykrita/foo", manual := "",
    desktopFile := "appdata/pykrita/a.desktop",
    isActive := false, isValid := true }

/-- The record produced from the corrupt manifest `corruptCfg`: valid flag
set, empty id. -/
def corruptRecord : Plugin :=
  { id := "", name := "NoId", description := "",
    path := "appdata/pykrita/", manual := "",
    desktopFile := "appdata/pykrita/.desktop",
    isActive := false, isValid := true }

/-- An archive containing two manifest files. -/
def twoManifestArchive : Archive :=
  [("a.desktop", .empty), ("b.desktop", .empty)]

/-- Host state in which `baz` is enabled and the only loaded module comes
from a file in a subdirectory of the `baz` install directory. -/
def subdirModuleState : HostState :=
  { settings := [("enable_baz", "true")],
    modules := [("m2", some "appdata/pykrita/baz/sub/mod.py")] }

/-! ## Theorems -/

/-- Reading back a key just written with `some v` yields `v`. -/
theorem readSetting_writeSetting_same (s : Settings) (k v d : String) :
    readSetting (writeSetting s k (some v)) k d = v := by
  simp [readSetting, writeSetting, List.lookup]

/-- Parsing when the required section is absent raises the `KeyError`. -/
theorem loadFromcfgParser_section_missing (s : Settings) (cfg : CfgParser)
    (h : cfg.lookup "Desktop Entry" = none) :
    loadFromcfgParser s cfg = .error (.keyError "Desktop Entry") := by
  unfold loadFromcfgParser
  rw [h]

/-- Parsing when the required section is present succeeds, with the valid
flag set. -/
theorem loadFromcfgParser_section_present (s : Settings) (cfg : CfgParser)
    (sec : Sect) (h : cfg.lookup "Desktop Entry" = some sec) :
    ∃ p, loadFromcfgParser s cfg = .ok p ∧ p.isValid = true := by
  unfold loadFromcfgParser
  rw [h]
  exact ⟨_, rfl, rfl⟩

/-- Claim C1 counterexample: a manifest whose `[Desktop Entry]` section lacks the
`X-KDE-Library` key still parses successfully — the produced record has
`isValid` true and an empty id, instead of a `MalformedManifest` failure. -/
theorem C1_missing_id_counterexample :
    (loadFromDesktopContent [] (.table corruptCfg)).toOption.map
      (fun r => (r.isValid, r.id)) = some (true, "") := by decide

/-- Claim C1 (amended): parsing a manifest table fails — with the `KeyError` on
`Desktop Entry` — exactly when the required section is absent, and every
successfully parsed record has `isValid` true; absence of the library-id key
does not fail the parse (the record then carries an empty id and is only
filtered out later, at registry level). -/
theorem C1_parse_fails_iff_section_missing (s : Settings) (cfg : CfgParser) :
    ((cfg.lookup "Desktop Entry" = none) ↔
      loadFromDesktopContent s (.table cfg) = .error (.keyError "Desktop Entry"))
    ∧ (∀ r, loadFromDesktopContent s (.table cfg) = .ok r → r.isValid = true) := by
  cases hl : cfg.lookup "Desktop Entry" with
  | none =>
    have he : loadFromDesktopContent s (.table cfg) = .error (.keyError "Desktop Entry") := by
      show Except.map _ (loadFromcfgParser s cfg) = _
      rw [loadFromcfgParser_section_missing s cfg hl]
      rfl
    refine ⟨⟨fun _ => he, fun _ => rfl⟩, fun r hr => ?_⟩
    rw [he] at hr
    exact Except.noConfusion hr
  | some sec =>
    obtain ⟨p, hp, hv⟩ := loadFromcfgParser_section_present s cfg sec hl
    have he : loadFromDesktopContent s (.table cfg) =
        .ok { p with desktopFile := joinPath pluginsPath (p.id ++ ".desktop") } := by
      show Except.map _ (loadFromcfgParser s cfg) = _
      rw [hp]
      rfl
    refine ⟨⟨fun h => Option.noConfusion h, fun h => ?_⟩, fun r hr => ?_⟩
    · rw [he] at h
      exact Except.noConfusion h
    · rw [he] at hr
      injection hr with h2
      rw [← h2]
      exact hv

/-- Claim C1 witness: the amended theorem applied to the corrupt fixture. -/
theorem C1_parse_fails_iff_section_missing_witness :
    corruptRecord.isValid = true :=
  (C1_parse_fails_iff_section_missing [] corruptCfg).2 corruptRecord (by decide)

/-- Claim C2 counterexample: installing `bazArchive` — whose entry `evil.txt` does
not lie under the entry-module directory prefix `baz/` — places a file
derived from that entry inside the plugin install directory (its first four
characters stripped, leaving `.txt`), contradicting the claim that entries
outside the prefix are never placed there. -/
theorem C2_stray_entry_counterexample :
    ((install hostOk false ⟨[], []⟩ [] bazArchive none).2.2).lookup
      "appdata/pykrita/baz/.txt" = some (.file .empty) := by decide

/-- Claim C2 (amended): extraction routes by basename to the installation root
(`<id>.desktop`) and the actions directory (`<id>.action`), both stripped by
the manifest directory prefix length; every remaining entry whose name is
longer than the entry-module directory prefix length — whether or not it
lies under that prefix — goes into the install directory with that many
leading characters stripped, and entries with shorter names are skipped.
Shown by the complete resulting filesystem for `bazArchive`: the entries
under `baz/` land stripped of `baz/`, the stray `evil.txt` lands as `.txt`,
and the three-character entry `abc` is dropped. -/
theorem C2_extraction_routing :
    install hostOk false ⟨[], []⟩ [] bazArchive none =
      (some bazActiveRec,
       ⟨[("enable_baz", "true")],
        [("__main__", some "appdata/pykrita/baz/__init__.py")]⟩,
       bazExtractedFS) := by decide

/-- Claim C3 counterexample: with the host setting `enable_baz` already stored as
`true`, the record constructed by install from the in-archive manifest is
already Active rather than Inactive; consequently the immediate `activate`
call is a no-op — even on a host whose module loading always raises, install
succeeds and never loads the entry module. -/
theorem C3_preset_setting_counterexample :
    ((loadFromDesktopContent [("enable_baz", "true")] (.table bazCfg)).toOption.map
       Plugin.isActive = some true)
    ∧ ((install hostBad false ⟨[("enable_baz", "true")], []⟩ [] bazArchive none).1.map
       Plugin.isActive = some true) := by decide

/-- Claim C3 (amended): install constructs the record with `isActive` read through
from the persisted host setting `enable_<id>` (true exactly when the stored
value is the string `true`), and then invokes `activate` on that record
before returning — a no-op when the record is already active. -/
theorem C3_install_reads_setting_then_activates (s : Settings) (host : Host) :
    loadFromDesktopContent s (.table bazCfg) = .ok (bazRecord s)
    ∧ ((bazRecord s).isActive = true ↔ readSetting s "enable_baz" "false" = "true")
    ∧ install host false ⟨s, []⟩ [] bazArchive none =
        (match activate host (bazRecord s) ⟨s, []⟩ with
         | .error (_, _, stE) => (none, stE, bazExtractedFS)
         | .ok (p2, st2) => (some p2, st2, bazExtractedFS)) := by
  refine ⟨rfl, by simp [bazRecord], rfl⟩

/-- Claim C4: when validation rejects the archive — no manifest entry, more than
one manifest entry, or no entry matching `<id>/__init__.py` — install
returns `none` and both the host state and the filesystem are exactly as
before (in particular no plugin directory is created). -/
theorem C4_rejected_archive_leaves_fs_unmodified (host : Host) (a : Bool)
    (st : HostState) (fs : FS) (archive : Archive) (ow : Option ActionValidate)
    (h : ((archive.map Prod.fst).filter (fun n => strEndsWith n ".desktop")) = []
       ∨ 2 ≤ ((archive.map Prod.fst).filter (fun n => strEndsWith n ".desktop")).length
       ∨ ∃ d p, ((archive.map Prod.fst).filter (fun n => strEndsWith n ".desktop")) = [d]
           ∧ loadFromDesktopContent st.settings ((archive.lookup d).getD .unparseable) = .ok p
           ∧ ((archive.map Prod.fst).filter
                (fun n => strEndsWith n (joinPath p.id "__init__.py"))) = []) :
    install host a st fs archive ow = (none, st, fs) := by
  unfold install
  split
  · rfl
  · rfl
  rename_i desktopFileName hd
  split
  · rfl
  rename_i plugin hp2
  rcases h with h | h | ⟨d', p, hd', hp, hinit⟩
  · rw [hd] at h
    simp at h
  · rw [hd] at h
    simp at h
  · rw [hd] at hd'
    injection hd' with h1 _
    subst h1
    rw [hp] at hp2
    injection hp2 with h2
    subst h2
    by_cases hv : p.isValid = true
    · simp [hv, hinit]
    · simp only [Bool.not_eq_true] at hv
      simp [hv]

/-- Claim C4 witness: an archive with two manifest files is rejected with nothing
touched. -/
theorem C4_rejected_archive_leaves_fs_unmodified_witness :
    install hostOk false ⟨[], []⟩ [] twoManifestArchive none = (none, ⟨[], []⟩, []) :=
  C4_rejected_archive_leaves_fs_unmodified hostOk false ⟨[], []⟩ []
    twoManifestArchive none (Or.inr (Or.inl (by decide)))

/-- Claim C5 counterexample: deactivating the active `baz` record leaves loaded a
module whose file lives in a subdirectory of the install directory —
`sys.modules` still contains it afterwards, contradicting the claim that
every module under the install directory, including those in
subdirectories, is removed. -/
theorem C5_subdir_module_counterexample :
    (deactivate bazActiveRec subdirModuleState).2.modules =
      [("m2", some "appdata/pykrita/baz/sub/mod.py")] := by decide

/-- Claim C5 (amended): deactivating an active record persists the disabled
sentinel and removes from the module table exactly the modules whose file
has `dirname` equal to the install directory itself; a module whose file
sits in a subdirectory (so its `dirname` differs from the install path)
is kept. -/
theorem C5_deactivate_unloads_direct_children_only (p : Plugin) (st : HostState)
    (h : p.isActive = true) :
    readSetting (deactivate p st).2.settings ("enable_" ++ p.id) "x" = "false"
    ∧ ∀ nm f, ((nm, some f) ∈ (deactivate p st).2.modules ↔
        ((nm, some f) ∈ st.modules ∧ ¬ dirname f = p.path)) := by
  constructor
  · simp [deactivate, h, readSetting_writeSetting_same]
  · intro nm f
    simp [deactivate, h, List.mem_filter]

/-- Claim C5 witness: the amended theorem applied to the subdirectory fixture. -/
theorem C5_deactivate_unloads_direct_children_only_witness :
    readSetting (deactivate bazActiveRec subdirModuleState).2.settings
      ("enable_" ++ bazActiveRec.id) "x" = "false" :=
  (C5_deactivate_unloads_direct_children_only bazActiveRec subdirModuleState rfl).1

/-- Claim C6 counterexample: `Plugins.append` called with an argument that is
neither a record nor a path (here: an arbitrary non-string object) does not
raise — it returns `False` with the registry unchanged, so the
wrong-argument contract is converted into a false return rather than an
always-raised `InvalidArgument`. -/
theorem C6_append_swallows_counterexample :
    pluginsAppend [] [] [] .pother = .ok (false, []) := by decide

/-- Claim C6 (amended): `Plugins.remove` and `Plugins.plugin` always raise
`EInvalidType` on a non-string id, but `Plugins.append` never raises: a
wrong-shape argument (neither string nor record) yields a `False` return
with the registry unchanged, and string arguments that fail to parse are
swallowed by its bare `except`. -/
theorem C6_remove_raises_append_returns_false (fs : FS) (s : Settings)
    (d : PluginDict) (v : PyVal) (h : v.isStr = false) :
    pluginsRemove d v = .error (.eInvalidType "Given id must be a str")
    ∧ pluginsPlugin d v = .error (.eInvalidType "Given id must be a str")
    ∧ (v.isPlugin = false → pluginsAppend fs s d v = .ok (false, d)) := by
  cases v <;>
    simp_all [pluginsRemove, pluginsPlugin, pluginsAppend, PyVal.isStr, PyVal.isPlugin]

/-- Claim C6 witness: the amended theorem applied to a `None` argument. -/
theorem C6_remove_raises_append_returns_false_witness :
    pluginsRemove [] .pnone = .error (.eInvalidType "Given id must be a str")
    ∧ pluginsPlugin [] .pnone = .error (.eInvalidType "Given id must be a str")
    ∧ pluginsAppend [] [] [] .pnone = .ok (false, []) := by
  have h := C6_remove_raises_append_returns_false [] [] [] .pnone rfl
  exact ⟨h.1, h.2.1, h.2.2 rfl⟩

/-- Claim C7: refreshing over a directory holding the valid manifest `a.desktop`
(id `foo`) and the corrupt `b.desktop` (missing the id key) yields exactly
one record, keyed `foo`, with `isValid` true; the corrupt file contributes
no record, and no step of the scan can raise — `pluginsAppend` returns `ok`
on every input. -/
theorem C7_refresh_swallows_corrupt_manifest :
    buildList regFS [] ["a.desktop", "b.desktop"] = [("foo", fooRecord)]
    ∧ ∀ (fs : FS) (s : Settings) (d : PluginDict) (v : PyVal),
        ∃ x, pluginsAppend fs s d v = .ok x := by
  constructor
  · decide
  · intro fs s d v
    cases v with
    | pstr str =>
      cases hl : loadFromDesktopFile fs s str with
      | error e => exact ⟨(false, d), by simp [pluginsAppend, hl]⟩
      | ok p =>
        by_cases hid : p.id = ""
        · exact ⟨(false, d), by simp [pluginsAppend, hl, hid]⟩
        · exact ⟨(true, dictInsert d p.id p), by simp [pluginsAppend, hl, hid]⟩
    | pplugin p =>
      by_cases hid : p.id = ""
      · exact ⟨(false, d), by simp [pluginsAppend, hid]⟩
      · exact ⟨(true, dictInsert d p.id p), by simp [pluginsAppend, hid]⟩
    | pnone => exact ⟨(false, d), rfl⟩
    | pother => exact ⟨(false, d), rfl⟩

/-- Claim C8: activating an already-active record and deactivating an
already-inactive record are complete no-ops — the record, the settings
store and the module table are returned unchanged, and neither the module
loader nor the module table is consulted. -/
theorem C8_activate_deactivate_noop (host : Host) (p : Plugin) (st : HostState) :
    (p.isActive = true → activate host p st = .ok (p, st))
    ∧ (p.isActive = false → deactivate p st = (p, st)) := by
  constructor
  · intro h; simp [activate, h]
  · intro h; simp [deactivate, h]

/-- Claim C8 witness: the no-ops evaluated on concrete records. -/
theorem C8_activate_deactivate_noop_witness :
    activate hostBad bazActiveRec subdirModuleState = .ok (bazActiveRec, subdirModuleState)
    ∧ deactivate fooRecord ⟨[], []⟩ = (fooRecord, ⟨[], []⟩) :=
  ⟨(C8_activate_deactivate_noop hostBad bazActiveRec subdirModuleState).1 rfl,
   (C8_activate_deactivate_noop hostBad fooRecord ⟨[], []⟩).2 rfl⟩

/-- Claim C9: uninstall with the confirmation resolved to no — an explicit no, or
an ask answered negatively — changes nothing: the record, the settings
store and the filesystem are returned unchanged and the result is `false`
(cancellation, not an error). -/
theorem C9_uninstall_abort_noop (ask : Bool) (p : Plugin) (st : HostState)
    (fs : FS) (c : Option ActionValidate)
    (h : c = some .no ∨ ((c = none ∨ c = some .ask) ∧ ask = false)) :
    uninstall ask p st fs c = (false, p, st, fs) := by
  rcases h with h | ⟨h1, h2⟩
  · subst h; rfl
  · subst h2
    rcases h1 with h1 | h1 <;> subst h1 <;> rfl

/-- Claim C9 witness: an explicit abort on the concrete `baz` record. -/
theorem C9_uninstall_abort_noop_witness :
    uninstall true bazActiveRec subdirModuleState regFS (some .no) =
      (false, bazActiveRec, subdirModuleState, regFS) :=
  C9_uninstall_abort_noop true bazActiveRec subdirModuleState regFS
    (some .no) (Or.inl rfl)

/-- Claim C10: activating an inactive record first sets the flag and persists the
enabled sentinel, and only then loads the entry module; if module loading
— or the later extension-activation step — raises, the error propagates
carrying the record already marked active while the settings store already
holds `true` for the id. -/
theorem C10_activate_not_atomic (host : Host) (p : Plugin) (st : HostState)
    (e : PyErr) (hp : p.isActive = false)
    (he : host.loadResult = .error e
        ∨ ((host.loadResult).isOk = true ∧ host.extResult = .error e)) :
    ∃ stE, activate host p st = .error (e, { p with isActive := true }, stE)
      ∧ readSetting stE.settings ("enable_" ++ p.id) "false" = "true"
      ∧ ({ p with isActive := true } : Plugin).isActive = true := by
  rcases he with he | ⟨hok, he⟩
  · refine ⟨{ st with
        settings := writeSetting st.settings ("enable_" ++ p.id) (some "true") },
      ?_, ?_, rfl⟩
    · simp [activate, hp, he]
    · exact readSetting_writeSetting_same _ _ _ _
  · cases hl : host.loadResult with
    | error e2 =>
      rw [hl] at hok
      simp [Except.isOk, Except.toBool] at hok
    | ok mods =>
      refine ⟨⟨writeSetting st.settings ("enable_" ++ p.id) (some "true"),
          st.modules ++ mods⟩, ?_, ?_, rfl⟩
      · simp [activate, hp, hl, he]
      · exact readSetting_writeSetting_same _ _ _ _

/-- Claim C10 witness: the failing-loader host on the inactive `foo` record. -/
theorem C10_activate_not_atomic_witness :
    (activate hostBad fooRecord ⟨[], []⟩).isOk = false := by
  obtain ⟨stE, h1, _, _⟩ := C10_activate_not_atomic hostBad fooRecord ⟨[], []⟩
    .loadModuleError rfl (Or.inl rfl)
  rw [h1]; rfl

end PluginManager
